import Mathlib

/-!
Shallow embedding of the price-scraping pipeline
(repository: CIENCIAS-DE-DATOS-, files 1electropunto.py, 2casadelaslamparas.py,
3iluminar.py, 4electrolineas.py, 5electromisiones.py, main.py).

We model the HTML documents handled by BeautifulSoup as a tree of element and
text nodes, implement the CSS-selector fragment the scripts use (tag / id /
class simple selectors, descendant and child combinators, comma groups), and
translate each script's extraction, pagination, scrolling, retry and
persistence logic into executable Lean functions.
-/

namespace Scrape

mutual

/-- An HTML node: an element (tag, class list, other attributes, children)
or a bare text node.  BeautifulSoup's `class` attribute is kept as a list of
class names; the raw attribute string is their space-separated join.
The children are a `NodeForest` (an inlined list, so that recursion over
documents stays structural and kernel-computable). -/
inductive Node where
  | elem (tag : String) (classes : List String) (attrs : List (String × String)) (children : NodeForest)
  | text (s : String)

/-- A sibling list of HTML nodes. -/
inductive NodeForest where
  | nil
  | cons (n : Node) (rest : NodeForest)

end

/-- Build a forest from a plain list of nodes. -/
def NodeForest.ofList : List Node → NodeForest
  | [] => .nil
  | n :: r => .cons n (NodeForest.ofList r)

/-- Element constructor taking the children as a plain list. -/
def Node.el (tag : String) (classes : List String) (attrs : List (String × String))
    (children : List Node) : Node :=
  .elem tag classes attrs (NodeForest.ofList children)

/-- The identity data of an element, used when matching selectors against
an element and its chain of ancestors. -/
structure EInfo where
  tag : String
  classes : List String
  attrs : List (String × String)
deriving Repr, DecidableEq

/-- One CSS simple selector: optional tag name, optional id, class names
(all of which must be present on the element). -/
structure SimpleSel where
  tag : Option String
  id : Option String
  classes : List String
deriving Repr, DecidableEq

/-- A complex CSS selector: a simple selector, optionally to the right of a
descendant (whitespace) or child (`>`) combinator. -/
inductive Sel where
  | simple (s : SimpleSel)
  | desc (p : Sel) (s : SimpleSel)
  | child (p : Sel) (s : SimpleSel)
deriving Repr, DecidableEq

/-- Attribute lookup on an element's attribute list. -/
def getAttr (attrs : List (String × String)) (k : String) : Option String :=
  (attrs.find? (fun p => p.1 == k)).map (fun p => p.2)

/-- Does an element match a simple selector? -/
def matchesSimple (ss : SimpleSel) (e : EInfo) : Bool :=
  (match ss.tag with | none => true | some t => t == e.tag)
  && (match ss.id with | none => true | some i => getAttr e.attrs "id" == some i)
  && ss.classes.all (fun c => e.classes.contains c)

/-- The ancestors of a chain paired with their own remaining chains
(nearest ancestor first). -/
def tailsFrom : List EInfo → List (EInfo × List EInfo)
  | [] => []
  | a :: rest => (a, rest) :: tailsFrom rest

/-- Does element `e`, whose ancestor chain (nearest first) is `anc`,
match the complex selector? -/
def selMatches : Sel → List EInfo → EInfo → Bool
  | .simple ss, _, e => matchesSimple ss e
  | .child p ss, anc, e =>
    matchesSimple ss e &&
      (match anc with
       | [] => false
       | a :: rest => selMatches p rest a)
  | .desc p ss, anc, e =>
    matchesSimple ss e && (tailsFrom anc).any (fun q => selMatches p q.2 q.1)

mutual

/-- Pre-order (document order) collection of the elements of a node's subtree
that satisfy the matcher `m`; `anc` is the node's ancestor chain. -/
def selectNodeBy (m : List EInfo → EInfo → Bool) (anc : List EInfo) : Node → List Node
  | .text _ => []
  | .elem t c a ch =>
    (if m anc ⟨t, c, a⟩ then [Node.elem t c a ch] else [])
      ++ selectForestBy m (⟨t, c, a⟩ :: anc) ch

/-- Document-order matching over a sibling forest. -/
def selectForestBy (m : List EInfo → EInfo → Bool) (anc : List EInfo) : NodeForest → List Node
  | .nil => []
  | .cons n rest => selectNodeBy m anc n ++ selectForestBy m anc rest

end

/-- `tag.select(sel)`: all strict descendants of the node matching `sel`,
in document order (soupsieve matches combinators against real ancestry,
which inside our detached subtrees is the chain rooted at the node itself). -/
def select (sel : Sel) : Node → List Node
  | .text _ => []
  | .elem t c a ch => selectForestBy (selMatches sel) [⟨t, c, a⟩] ch

/-- `tag.select_one(sel)`: first match in document order. -/
def selectOne (sel : Sel) (n : Node) : Option Node :=
  (select sel n).head?

/-- `tag.select("s1, s2, ...")` for a comma-separated selector group:
elements matching any alternative, in document order (soupsieve does not
try the alternatives in order; the document position decides). -/
def selectGroup (alts : List Sel) : Node → List Node
  | .text _ => []
  | .elem t c a ch =>
    selectForestBy (fun anc e => alts.any (fun s => selMatches s anc e)) [⟨t, c, a⟩] ch

/-- `tag.select_one("s1, s2, ...")`: first element in document order that
matches any alternative of the group. -/
def selectOneGroup (alts : List Sel) (n : Node) : Option Node :=
  (selectGroup alts n).head?

mutual

/-- BeautifulSoup `.text`: concatenation of every descendant string,
document order, no separators. -/
def textOf : Node → String
  | .text s => s
  | .elem _ _ _ ch => textOfForest ch

def textOfForest : NodeForest → String
  | .nil => ""
  | .cons n rest => textOf n ++ textOfForest rest

end

mutual

/-- `tag.find_all(string=True, recursive=True)`: all descendant strings in
document order. -/
def stringsOf : Node → List String
  | .text s => [s]
  | .elem _ _ _ ch => stringsOfForest ch

def stringsOfForest : NodeForest → List String
  | .nil => []
  | .cons n rest => stringsOf n ++ stringsOfForest rest

end

mutual

/-- `soup.find(string=target)`: is there a descendant text node whose
content is exactly `target`? -/
def hasStringNode (target : String) : Node → Bool
  | .text s => s == target
  | .elem _ _ _ ch => hasStringForest target ch

def hasStringForest (target : String) : NodeForest → Bool
  | .nil => false
  | .cons n rest => hasStringNode target n || hasStringForest target rest

end

/-- Python's `str.strip()`: drop leading and trailing whitespace
(computed on the character list so evaluation stays kernel-friendly). -/
def pyStrip (s : String) : String :=
  ⟨((s.data.dropWhile Char.isWhitespace).reverse.dropWhile Char.isWhitespace).reverse⟩

/-- Is the first character list a prefix of the second? -/
def isPrefixList : List Char → List Char → Bool
  | [], _ => true
  | _ :: _, [] => false
  | a :: as, b :: bs => a == b && isPrefixList as bs

/-- Does `needle` occur inside `hay` (character lists)? -/
def containsList : List Char → List Char → Bool
  | hay, needle =>
    isPrefixList needle hay ||
      (match hay with
       | [] => false
       | _ :: t => containsList t needle)

/-- Python's substring test `needle in hay`. -/
def containsSub (hay needle : String) : Bool :=
  containsList hay.data needle.data

/-- Python's string slice `s[:n]`: the first `n` characters. -/
def strTake (s : String) (n : Nat) : String :=
  ⟨s.data.take n⟩

/-- Python's string comparison, lexicographic by code point, a proper
prefix ordering before its extensions. -/
def lexLe : List Char → List Char → Bool
  | [], _ => true
  | _ :: _, [] => false
  | a :: as, b :: bs =>
    if a.toNat < b.toNat then true
    else if b.toNat < a.toNat then false
    else lexLe as bs

/-- `a <= b` on Python strings. -/
def pyLe (a b : String) : Prop :=
  lexLe a.data b.data = true

instance : DecidableRel pyLe := fun a b => instDecidableEqBool (lexLe a.data b.data) true

mutual

/-- BeautifulSoup `find_all` over a node's subtree, document order, keeping
for every match the forest of its following siblings (needed to model
`find_next_sibling`).  The predicate sees tag, class list and attributes. -/
def findAllCtxNode (p : String → List String → List (String × String) → Bool) :
    Node → NodeForest → List (Node × NodeForest)
  | .text _, _ => []
  | .elem t c a ch, sibs =>
    (if p t c a then [(Node.elem t c a ch, sibs)] else []) ++ findAllCtx p ch

/-- `find_all` with following-sibling context over a sibling forest. -/
def findAllCtx (p : String → List String → List (String × String) → Bool) :
    NodeForest → List (Node × NodeForest)
  | .nil => []
  | .cons n rest => findAllCtxNode p n rest ++ findAllCtx p rest

end

/-- BeautifulSoup `tag.find(...)`: first strict descendant matching the
predicate, document order. -/
def findFirst (p : String → List String → List (String × String) → Bool) (n : Node) : Option Node :=
  match n with
  | .text _ => none
  | .elem _ _ _ ch => (findAllCtx p ch).head?.map (fun q => q.1)

/-- The children of a node (the top-level forest when applied to the
document node). -/
def childrenOf : Node → NodeForest
  | .text _ => .nil
  | .elem _ _ _ ch => ch

/-- One scraped record: `(Fecha, Descripcion, Precio)`. -/
abbrev Rec := String × String × String

/-- The ambient outcome of one iteration of a per-item `try` block: it runs
to completion, raises before the name was assigned, or raises after the name
phase (e.g. while extracting the price or inserting the row). -/
inductive ItemEvent where
  | ok
  | raiseEarly (msg : String)
  | raiseLate (msg : String)
deriving Repr, DecidableEq

/-- Map over a list passing each element's position (used to sample the
ambient clock and exception stream once per product node, like the loop
bodies call `datetime.now()` and hit at most one exception per item). -/
def mapIdx (f : Nat → Node → Rec) : Nat → List Node → List Rec
  | _, [] => []
  | i, d :: rest => f i d :: mapIdx f (i + 1) rest

/-! ### 3iluminar.py: extraction (`process_products_from_soup`) -/

/-- `div.product-small.col.has-hover.product` (3iluminar product container). -/
def iluminarContainerSel : Sel :=
  .simple ⟨some "div", none, ["product-small", "col", "has-hover", "product"]⟩

/-- `p.name.product-title.woocommerce-loop-product__title > a` (3iluminar name). -/
def iluminarNameSel : Sel :=
  .child (.simple ⟨some "p", none, ["name", "product-title", "woocommerce-loop-product__title"]⟩)
    ⟨some "a", none, []⟩

/-- The `price_selectors` cascade of 3iluminar, in configured order. -/
def price_selectors : List Sel :=
  [ .desc (.desc (.desc (.desc (.simple ⟨some "div", none, ["price-wrapper"]⟩)
      ⟨some "span", none, ["price"]⟩) ⟨some "ins", none, []⟩)
      ⟨some "span", none, ["woocommerce-Price-amount", "amount"]⟩) ⟨some "bdi", none, []⟩,
    .desc (.desc (.desc (.simple ⟨some "div", none, ["price-wrapper"]⟩)
      ⟨some "span", none, ["price"]⟩)
      ⟨some "span", none, ["woocommerce-Price-amount", "amount"]⟩) ⟨some "bdi", none, []⟩,
    .desc (.desc (.simple ⟨some "div", none, ["price-wrapper"]⟩)
      ⟨some "span", none, ["price"]⟩) ⟨some "bdi", none, []⟩,
    .desc (.simple ⟨some "div", none, ["price-wrapper"]⟩) ⟨some "bdi", none, []⟩,
    .desc (.simple ⟨some "span", none, ["woocommerce-Price-amount", "amount"]⟩)
      ⟨some "bdi", none, []⟩ ]

/-- The `for selector in price_selectors: ... break` loop: try each selector
in configured order with `select_one`; the first structural match wins. -/
def cascadeSelect : List Sel → Node → Option Node
  | [], _ => none
  | s :: rest, d =>
    match selectOne s d with
    | some e => some e
    | none => cascadeSelect rest d

/-- 3iluminar name extraction for one product container. -/
def iluminarName (div : Node) : String :=
  match selectOne iluminarNameSel div with
  | some e => pyStrip (textOf e)
  | none => "No disponible"

/-- 3iluminar price extraction for one product container. -/
def iluminarPrice (div : Node) : String :=
  match cascadeSelect price_selectors div with
  | some e => pyStrip (textOf e)
  | none => "No disponible"

/-- One iteration of 3iluminar's per-product loop body, with the fecha
sampled from the ambient clock and the `try` outcome given by `ev`.  On an
exception the record `(fecha, "Error en parseo - " ++ name-so-far,
str(e)[:50])` is appended, never skipped. -/
def iluminarParseItem (fecha : String) (ev : ItemEvent) (div : Node) : Rec :=
  match ev with
  | .ok => (fecha, iluminarName div, iluminarPrice div)
  | .raiseEarly msg => (fecha, "Error en parseo - " ++ "No disponible", strTake msg 50)
  | .raiseLate msg => (fecha, "Error en parseo - " ++ iluminarName div, strTake msg 50)

/-- `process_products_from_soup` of 3iluminar.py: one record per detected
product container.  `clock i` is the `datetime.now()` date seen by item `i`,
`events i` the outcome of item `i`'s `try` block. -/
def process_products_from_soup (clock : Nat → String) (events : Nat → ItemEvent)
    (soup : Node) : List Rec :=
  mapIdx (fun i d => iluminarParseItem (clock i) (events i) d) 0
    (select iluminarContainerSel soup)

/-! ### 5electromisiones.py: extraction (per-item loop of `main`) -/

/-- `#category-description article, #js-product-list article`. -/
def emContainerAlts : List Sel :=
  [ .desc (.simple ⟨none, some "category-description", []⟩) ⟨some "article", none, []⟩,
    .desc (.simple ⟨none, some "js-product-list", []⟩) ⟨some "article", none, []⟩ ]

/-- `h3.product-title a, h6.product-title a, .product-title a, .product_title a`. -/
def emNameAlts : List Sel :=
  [ .desc (.simple ⟨some "h3", none, ["product-title"]⟩) ⟨some "a", none, []⟩,
    .desc (.simple ⟨some "h6", none, ["product-title"]⟩) ⟨some "a", none, []⟩,
    .desc (.simple ⟨none, none, ["product-title"]⟩) ⟨some "a", none, []⟩,
    .desc (.simple ⟨none, none, ["product_title"]⟩) ⟨some "a", none, []⟩ ]

/-- `span.price, div.tv-product-price span, .product-price-and-shipping .price,
.product_price .price`. -/
def emPriceAlts : List Sel :=
  [ .simple ⟨some "span", none, ["price"]⟩,
    .desc (.simple ⟨some "div", none, ["tv-product-price"]⟩) ⟨some "span", none, []⟩,
    .desc (.simple ⟨none, none, ["product-price-and-shipping"]⟩) ⟨none, none, ["price"]⟩,
    .desc (.simple ⟨none, none, ["product_price"]⟩) ⟨none, none, ["price"]⟩ ]

/-- The non-whitespace text fragments of a matched price element:
`[s.strip() for s in price_element.find_all(string=True, recursive=True) if s.strip()]`. -/
def emPriceParts (e : Node) : List String :=
  ((stringsOf e).map (fun s => pyStrip s)).filter (fun s => s ≠ "")

/-- 5electromisiones name extraction for one product node. -/
def emName (div : Node) : String :=
  match selectOneGroup emNameAlts div with
  | some e => pyStrip (textOf e)
  | none => "No disponible"

/-- 5electromisiones price extraction: the matched element's non-empty
stripped fragments joined with single spaces, else the sentinel. -/
def emPrice (div : Node) : String :=
  match selectOneGroup emPriceAlts div with
  | some e =>
    let parts := emPriceParts e
    if parts.isEmpty then "No disponible" else String.intercalate " " parts
  | none => "No disponible"

/-- One iteration of 5electromisiones' per-product loop body. -/
def emParseItem (fecha : String) (ev : ItemEvent) (div : Node) : Rec :=
  match ev with
  | .ok => (fecha, emName div, emPrice div)
  | .raiseEarly msg => (fecha, "Error en parseo - " ++ "No disponible", strTake msg 50)
  | .raiseLate msg => (fecha, "Error en parseo - " ++ emName div, strTake msg 50)

/-- The per-item extraction loop of 5electromisiones.py over one page. -/
def electromisionesProcess (clock : Nat → String) (events : Nat → ItemEvent)
    (soup : Node) : List Rec :=
  mapIdx (fun i d => emParseItem (clock i) (events i) d) 0 (selectGroup emContainerAlts soup)

/-! ### 1electropunto.py: extraction (per-item loop with `continue` on error) -/

/-- `soup.find_all("div", class_="js-item-name h2 item-name")`: with a
multi-word `class_` string BeautifulSoup matches the exact class attribute
value, i.e. the space-joined class list. -/
def electropuntoItems (soup : Node) : List (Node × NodeForest) :=
  findAllCtx
    (fun t c _ => t == "div" && String.intercalate " " c == "js-item-name h2 item-name")
    (childrenOf soup)

/-- `product_div.find_next_sibling("div", class_="item-price-container")`:
first following sibling (same level, no descent) that is a `div` carrying the
class `item-price-container`. -/
def electropuntoOuterPrice : NodeForest → Option Node
  | .nil => none
  | .cons (.text _) rest => electropuntoOuterPrice rest
  | .cons (.elem t c a ch) rest =>
    if t == "div" && c.contains "item-price-container" then some (.elem t c a ch)
    else electropuntoOuterPrice rest

/-- 1electropunto price extraction from the item's following siblings:
outer `item-price-container` sibling, then inner
`find("div", class_="js-price-display price item-price")` (exact class
attribute match), defaulting to the sentinel. -/
def electropuntoPrice (sibs : NodeForest) : String :=
  match electropuntoOuterPrice sibs with
  | none => "No disponible"
  | some outer =>
    match findFirst
        (fun t c _ => t == "div" && String.intercalate " " c == "js-price-display price item-price")
        outer with
    | none => "No disponible"
    | some inner => pyStrip (textOf inner)

/-- One iteration of 1electropunto's per-product loop body: on any per-item
exception the script logs and `continue`s, so the node yields no record. -/
def electropuntoParseItem (fecha : String) (ev : ItemEvent) (item : Node × NodeForest) :
    Option Rec :=
  match ev with
  | .ok => some (fecha, pyStrip (textOf item.1), electropuntoPrice item.2)
  | .raiseEarly _ => none
  | .raiseLate _ => none

/-- Indexed `filterMap` for the 1electropunto loop. -/
def filterMapIdx (f : Nat → Node × NodeForest → Option Rec) :
    Nat → List (Node × NodeForest) → List Rec
  | _, [] => []
  | i, d :: rest =>
    match f i d with
    | some r => r :: filterMapIdx f (i + 1) rest
    | none => filterMapIdx f (i + 1) rest

/-- The per-item extraction loop of 1electropunto.py over one page: a
per-item exception skips the node (`except ...: continue`). -/
def electropuntoProcess (clock : Nat → String) (events : Nat → ItemEvent)
    (soup : Node) : List Rec :=
  filterMapIdx (fun i it => electropuntoParseItem (clock i) (events i) it) 0
    (electropuntoItems soup)

/-! ### 4electrolineas.py: extraction (per-item loop of `main`) -/

/-- `div.product-grid-item.product` (primary container selector). -/
def elContainerSel : Sel := .simple ⟨some "div", none, ["product-grid-item", "product"]⟩

/-- `li.product.type-product` (fallback container selector). -/
def elContainerFallbackSel : Sel := .simple ⟨some "li", none, ["product", "type-product"]⟩

/-- The detected product nodes of a 4electrolineas page: primary selector,
falling back to the `li` selector when it finds nothing. -/
def electrolineasContainers (soup : Node) : List Node :=
  let prim := select elContainerSel soup
  if prim.isEmpty then select elContainerFallbackSel soup else prim

/-- `.wd-entities-title a`, with fallback `div.product-element-bottom > h3 > a`. -/
def electrolineasName (div : Node) : String :=
  let first := selectOne (.desc (.simple ⟨none, none, ["wd-entities-title"]⟩) ⟨some "a", none, []⟩) div
  let nameEl :=
    match first with
    | some e => some e
    | none =>
      selectOne
        (.child (.child (.simple ⟨some "div", none, ["product-element-bottom"]⟩)
          ⟨some "h3", none, []⟩) ⟨some "a", none, []⟩) div
  match nameEl with
  | some e => pyStrip (textOf e)
  | none => "No disponible"

/-- The `price_selectors` cascade of 4electrolineas, in configured order. -/
def electrolineasPriceSelectors : List Sel :=
  [ .desc (.desc (.desc (.simple ⟨some "span", none, ["price"]⟩) ⟨some "ins", none, []⟩)
      ⟨some "span", none, ["woocommerce-Price-amount", "amount"]⟩) ⟨some "bdi", none, []⟩,
    .desc (.desc (.simple ⟨some "span", none, ["price"]⟩)
      ⟨some "span", none, ["woocommerce-Price-amount", "amount"]⟩) ⟨some "bdi", none, []⟩,
    .desc (.desc (.desc (.simple ⟨some "div", none, ["wrap-price"]⟩)
      ⟨some "span", none, ["price"]⟩)
      ⟨some "span", none, ["woocommerce-Price-amount", "amount"]⟩) ⟨some "bdi", none, []⟩,
    .desc (.desc (.desc (.desc (.simple ⟨some "div", none, ["product-element-bottom"]⟩)
      ⟨some "div", none, ["wrap-price"]⟩) ⟨some "span", none, ["price"]⟩)
      ⟨some "span", none, ["woocommerce-Price-amount"]⟩) ⟨some "bdi", none, []⟩ ]

/-- 4electrolineas price extraction for one product container. -/
def electrolineasPrice (div : Node) : String :=
  match cascadeSelect electrolineasPriceSelectors div with
  | some e => pyStrip (textOf e)
  | none => "No disponible"

/-- One iteration of 4electrolineas' per-product loop body: same error-record
shape as 3iluminar (`"Error en parseo - "` prefix, `str(e)[:50]` price). -/
def electrolineasParseItem (fecha : String) (ev : ItemEvent) (div : Node) : Rec :=
  match ev with
  | .ok => (fecha, electrolineasName div, electrolineasPrice div)
  | .raiseEarly msg => (fecha, "Error en parseo - " ++ "No disponible", strTake msg 50)
  | .raiseLate msg => (fecha, "Error en parseo - " ++ electrolineasName div, strTake msg 50)

/-- The per-item extraction loop of 4electrolineas.py over one page. -/
def electrolineasProcess (clock : Nat → String) (events : Nat → ItemEvent)
    (soup : Node) : List Rec :=
  mapIdx (fun i d => electrolineasParseItem (clock i) (events i) d) 0
    (electrolineasContainers soup)

/-! ### 3iluminar.py: sequential-probe pagination (`main`, pages 2..MAX_PAGE_CHECK) -/

/-- `MAX_PAGE_CHECK = 100`: max number of additional pages to check per base URL. -/
def MAX_PAGE_CHECK : Nat := 100

/-- `soup.find(string="¡Ups! No pudimos encontrar esa página.")` used as the
page-not-found marker. -/
def hasPageNotFound (soup : Node) : Bool :=
  hasStringNode "¡Ups! No pudimos encontrar esa página." soup

/-- The explicit no-results check: `soup.select_one("p.woocommerce-info")`
whose text contains one of the two notice phrases. -/
def hasNoProductsNotice (soup : Node) : Bool :=
  match selectOne (.simple ⟨some "p", none, ["woocommerce-info"]⟩) soup with
  | some nv =>
    containsSub (textOf nv) "No se encontraron productos"
      || containsSub (textOf nv) "No products were found"
  | none => false

/-- The additional-page loop of 3iluminar's `main` over a list of remaining
page numbers.  `fetch n` is the rendered markup of `{base_url}page/n/`.
Returns `(requested page numbers, accepted page numbers, collected records)`;
a page where a stop condition fires is requested but never accepted. -/
def probeFrom (fetch : Nat → Node) (clock : Nat → String) (events : Nat → ItemEvent) :
    List Nat → List Nat × List Nat × List Rec
  | [] => ([], [], [])
  | n :: rest =>
    let soup := fetch n
    if hasPageNotFound soup then ([n], [], [])
    else
      let prods := process_products_from_soup clock events soup
      if prods.isEmpty then
        if hasNoProductsNotice soup then ([n], [], [])
        else if n > 5 then ([n], [], [])
        else
          let r := probeFrom fetch clock events rest
          (n :: r.1, n :: r.2.1, r.2.2)
      else
        let r := probeFrom fetch clock events rest
        (n :: r.1, n :: r.2.1, prods ++ r.2.2)

/-- `range(2, MAX_PAGE_CHECK + 1)`: the page numbers 2..100 the probe loop
may visit. -/
def probePages : List Nat := List.range' 2 (MAX_PAGE_CHECK - 1)

/-- 3iluminar's full additional-page probing for one base URL. -/
def iluminarPagination (fetch : Nat → Node) (clock : Nat → String)
    (events : Nat → ItemEvent) : List Nat × List Nat × List Rec :=
  probeFrom fetch clock events probePages

/-! ### Scroll loops: 3iluminar `scroll_page_fully` and 2casadelaslamparas -/

/-- Why a scroll loop stopped: height stabilized, or the attempt bound was hit. -/
inductive ScrollStop where
  | stable
  | bound
deriving Repr, DecidableEq

/-- The body of 3iluminar's `while scroll_attempts < 15` loop.
`heights i` is the i-th measurement of `document.body.scrollHeight`
(`heights 0` is the pre-loop measurement); `fuel = 15 - scroll_attempts`;
`last` is `last_height` and `cnc` is `consecutive_no_change`.
Returns the number of loop iterations executed and the stop cause. -/
def scrollLoopAux (heights : Nat → Nat) : Nat → Nat → Nat → Nat → Nat × ScrollStop
  | 0, _, _, _ => (0, .bound)
  | fuel + 1, iter, last, cnc =>
    let newH := heights iter
    if newH = last then
      if cnc + 1 ≥ 2 then (1, .stable)
      else
        let r := scrollLoopAux heights fuel (iter + 1) newH (cnc + 1)
        (r.1 + 1, r.2)
    else
      let r := scrollLoopAux heights fuel (iter + 1) newH 0
      (r.1 + 1, r.2)

/-- `scroll_page_fully` of 3iluminar.py: at most 15 scroll attempts; breaks
early once the height is unchanged on two consecutive checks.  Hitting the
bound only logs a warning; the function still returns normally. -/
def scroll_page_fully (heights : Nat → Nat) : Nat × ScrollStop :=
  scrollLoopAux heights 15 1 (heights 0) 0

/-- The `while True` scroll loop of 2casadelaslamparas.py: breaks as soon as
one measurement repeats the previous height; there is no attempt bound, so we
run it on explicit fuel.  `some k` means the loop broke after `k` iterations;
`none` means it was still running when the fuel ran out. -/
def casaScrollAux (heights : Nat → Nat) : Nat → Nat → Nat → Option Nat
  | 0, _, _ => none
  | fuel + 1, iter, last =>
    let newH := heights iter
    if newH = last then some 1
    else (casaScrollAux heights fuel (iter + 1) newH).map (fun k => k + 1)

/-- 2casadelaslamparas' scroll loop started from the pre-loop measurement
`heights 0`, observed for at most `fuel` iterations. -/
def casaScroll (heights : Nat → Nat) (fuel : Nat) : Option Nat :=
  casaScrollAux heights fuel 1 (heights 0)

/-! ### 4electrolineas.py / 5electromisiones.py: static fetch with retries -/

/-- `Retry(total=5, ...)` of `create_session_with_retries`. -/
def RETRY_TOTAL : Nat := 5

/-- `status_forcelist=[500, 502, 503, 504]` of `create_session_with_retries`. -/
def status_forcelist : List Nat := [500, 502, 503, 504]

/-- Result of one session GET after the retry machinery. -/
inductive SessionResult where
  | response (status : Nat)
  | retriesExhausted
deriving Repr, DecidableEq

/-- Modelled from the spec: the retry engine behind
`create_session_with_retries` (urllib3's `Retry`, mounted on the session via
`HTTPAdapter`) is third-party code not present under src/; per the spec it
"retries on a designated set of transient server error status codes
(500/502/503/504) ... up to a fixed attempt ceiling" and returns any other
status to the caller.  `statusOf i` is the status the server sends to the
i-th HTTP request.  Returns (number of requests issued, outcome). -/
def retryRequests (statusOf : Nat → Nat) : Nat → Nat → Nat × SessionResult
  | 0, i =>
    if statusOf i ∈ status_forcelist then (1, .retriesExhausted)
    else (1, .response (statusOf i))
  | r + 1, i =>
    if statusOf i ∈ status_forcelist then
      let t := retryRequests statusOf r (i + 1)
      (t.1 + 1, t.2)
    else (1, .response (statusOf i))

/-- `session.get(url, ...)` with the configured retry strategy. -/
def session_get (statusOf : Nat → Nat) : Nat × SessionResult :=
  retryRequests statusOf RETRY_TOTAL 0

/-- Outcome of `session.get` followed by `response.raise_for_status()`:
retry exhaustion and any status ≥ 400 surface as a fetch failure. -/
inductive FetchOutcome where
  | ok (status : Nat)
  | failed
deriving Repr, DecidableEq

/-- One page fetch as the callers see it: `session.get` + `raise_for_status`.
Returns (requests issued, outcome). -/
def fetch_page (statusOf : Nat → Nat) : Nat × FetchOutcome :=
  match session_get statusOf with
  | (k, .retriesExhausted) => (k, .failed)
  | (k, .response s) => (k, if 400 ≤ s then .failed else .ok s)

/-- The callers' per-URL loop (1electropunto.py, 4electrolineas.py,
5electromisiones.py): a failed fetch is logged and the page skipped
(`continue` / `except ...RequestException`), the remaining URLs still
processed.  `statusOf u` is the server behavior for URL `u` and
`extract u` the records its markup yields. -/
def scrapeUrls (statusOf : String → Nat → Nat) (extract : String → List Rec) :
    List String → List Rec
  | [] => []
  | u :: rest =>
    match (fetch_page (statusOf u)).2 with
    | .failed => scrapeUrls statusOf extract rest
    | .ok _ => extract u ++ scrapeUrls statusOf extract rest

/-! ### 4electrolineas.py: link-harvest pagination -/

/-- `nav.woocommerce-pagination`. -/
def navWooSel : Sel := .simple ⟨some "nav", none, ["woocommerce-pagination"]⟩

/-- `.products-footer nav` (fallback). -/
def navFooterSel : Sel :=
  .desc (.simple ⟨none, none, ["products-footer"]⟩) ⟨some "nav", none, []⟩

/-- `a.page-numbers` inside the pagination nav. -/
def pageNumbersSel : Sel := .simple ⟨some "a", none, ["page-numbers"]⟩

/-- The pagination nav lookup of 4electrolineas: primary selector, then the
fallback. -/
def electrolineasNav (soup : Node) : Option Node :=
  match selectOne navWooSel soup with
  | some nv => some nv
  | none => selectOne navFooterSel soup

/-- The hrefs of the `a.page-numbers` links inside the nav (links without an
`href` attribute are skipped). -/
def hrefsOfNav (nv : Node) : List String :=
  (select pageNumbersSel nv).filterMap fun n =>
    match n with
    | .elem _ _ attrs _ => getAttr attrs "href"
    | .text _ => none

/-- `page_urls_to_scrape` of 4electrolineas's `main`: the base URL plus every
harvested pagination link, as a deduplicated set, then
`sorted(list(page_urls_to_scrape))` — ascending lexicographic order. -/
def page_urls_to_scrape (soup : Node) (base : String) : List String :=
  let urls : List String :=
    match electrolineasNav soup with
    | some nv => base :: hrefsOfNav nv
    | none => [base]
  List.insertionSort pyLe urls.dedup

/-! ### main.py orchestrator and the per-source commit/rollback sink -/

/-- The sub-script list of main.py. -/
def scripts : List String :=
  [ "1electropunto.py", "2casadelaslamparas.py", "3iluminar.py",
    "4electrolineas.py", "5electromisiones.py", "6listas_en_excel.py",
    "7envio_email.py" ]

/-- The `for script in scripts` loop of main.py: every script is run via
`subprocess.run` regardless of earlier failures; `outcome s` is whether
script `s` exits successfully.  Returns the per-script results in order. -/
def runScripts (outcome : String → Bool) : List String → List (String × Bool)
  | [] => []
  | s :: rest => (s, outcome s) :: runScripts outcome rest

/-- main.py's `overall_success` flag after the loop, driving `sys.exit`. -/
def overall_success (outcome : String → Bool) : Bool :=
  (runScripts outcome scripts).all (fun p => p.2)

/-- One source's batch commit (`executemany` + `commit`) with the rollback
of 3iluminar/4electrolineas/5electromisiones: on a persistence failure the
transaction is rolled back, leaving the stored rows unchanged. -/
def commitBatch (db : List Rec) (batch : List Rec) (ok : Bool) : List Rec :=
  if ok then db ++ batch else db

/-- Sequential multi-source persistence: each source's `(persist-ok, batch)`
is attempted in order; a failure rolls its batch back and processing
continues with the next source.  Returns the final stored rows and the
overall success flag. -/
def runSources (db : List Rec) : List (Bool × List Rec) → List Rec × Bool
  | [] => (db, true)
  | (ok, b) :: rest =>
    let r := runSources (commitBatch db b ok) rest
    (r.1, ok && r.2)

/-! ### Concrete fixture documents (used to instantiate the theorems) -/

/-- A WooCommerce price wrapper carrying a regular (non-sale) price. -/
def fxPriceWrap (amount : String) : Node :=
  Node.el "div" ["price-wrapper"] [] [
    Node.el "span" ["price"] [] [
      Node.el "span" ["woocommerce-Price-amount", "amount"] [] [
        Node.el "bdi" [] [] [.text amount]]]]

/-- A 3iluminar product container with name and regular price. -/
def fxProduct (nm amount : String) : Node :=
  Node.el "div" ["product-small", "col", "has-hover", "product"] [] [
    Node.el "p" ["name", "product-title", "woocommerce-loop-product__title"] [] [
      Node.el "a" [] [] [.text nm]],
    fxPriceWrap amount]

/-- A 3iluminar product container whose markup carries no price element
matching any candidate selector. -/
def fxProductNoPrice (nm : String) : Node :=
  Node.el "div" ["product-small", "col", "has-hover", "product"] [] [
    Node.el "p" ["name", "product-title", "woocommerce-loop-product__title"] [] [
      Node.el "a" [] [] [.text nm]]]

/-- A rendered 3iluminar shop page holding the given product containers. -/
def fxPage (prods : List Node) : Node :=
  Node.el "html" [] [] [Node.el "body" [] [] [Node.el "div" ["shop-container"] [] prods]]

/-- A fixed ambient clock (every item captured on the same date). -/
def fxClock : Nat → String := fun _ => "01/01/2025"

/-- A clock one day later, for the determinism counterexample. -/
def fxClockLater : Nat → String := fun _ => "02/01/2025"

/-- An exception-free run: every item's `try` block completes. -/
def fxOk : Nat → ItemEvent := fun _ => .ok

/-- A shop page with no product containers and no notices. -/
def fxEmptyPage : Node := fxPage []

/-- A page carrying WooCommerce's explicit no-results notice and nothing else. -/
def fxNoticePage : Node :=
  Node.el "html" [] [] [Node.el "body" [] [] [
    Node.el "p" ["woocommerce-info"] [] [.text "No products were found matching your selection."]]]

/-- A page carrying BOTH a detected product container and the explicit
no-results notice (the markup separating the code from claim C5's stated
precedence). -/
def fxProdAndNoticePage : Node :=
  Node.el "html" [] [] [Node.el "body" [] [] [
    Node.el "p" ["woocommerce-info"] [] [.text "No products were found matching your selection."],
    Node.el "div" ["shop-container"] [] [fxProduct "Lamp Z" "$9"]]]

/-- A page carrying the explicit page-not-found marker. -/
def fxNotFoundPage : Node :=
  Node.el "html" [] [] [Node.el "body" [] [] [.text "¡Ups! No pudimos encontrar esa página."]]

/-- A 1electropunto item: the name div followed by its sibling price container. -/
def fxEpItem (nm price : String) : List Node :=
  [ Node.el "div" ["js-item-name", "h2", "item-name"] [] [.text nm],
    Node.el "div" ["item-price-container"] [] [
      Node.el "div" ["js-price-display", "price", "item-price"] [] [.text price]]]

/-- A rendered 1electropunto listing with two items. -/
def fxEpPage : Node :=
  Node.el "html" [] [] [Node.el "body" [] [] (fxEpItem "Prod 1" "$10" ++ fxEpItem "Prod 2" "$20")]

/-- An event stream whose first item raises (e.g. the per-item DB insert of
1electropunto failing) while every later item completes. -/
def fxRaiseFirst : Nat → ItemEvent :=
  fun i => if i = 0 then .raiseLate "db error" else .ok

/-- A 5electromisiones product article: title link plus a price span whose
text is split over several fragments. -/
def fxEmProduct (nm amount : String) : Node :=
  Node.el "article" [] [] [
    Node.el "h3" ["product-title"] [] [Node.el "a" [] [] [.text nm]],
    Node.el "span" ["price"] [] [.text "  $ ", Node.el "b" [] [] [.text (amount ++ "  ")]]]

/-- A rendered 5electromisiones listing page. -/
def fxEmPage (prods : List Node) : Node :=
  Node.el "html" [] [] [Node.el "div" [] [("id", "js-product-list")] prods]

/-- A 4electrolineas page whose pagination nav links to pages 2 and 3 and
back to the base page. -/
def fxNavPage : Node :=
  Node.el "html" [] [] [Node.el "body" [] [] [
    Node.el "nav" ["woocommerce-pagination"] [] [
      Node.el "a" ["page-numbers"] [("href", "https://ex.com/cat/page/2/")] [.text "2"],
      Node.el "a" ["page-numbers"] [("href", "https://ex.com/cat/page/3/")] [.text "3"],
      Node.el "a" ["page-numbers"] [("href", "https://ex.com/cat/")] [.text "1"]]]]

/-- The fetch oracle of claim C5's counterexample: page 2 carries a product
and the no-results notice, every other probed page is empty. -/
def fxFetchCE : Nat → Node := fun n => if n = 2 then fxProdAndNoticePage else fxEmptyPage

/-- The fetch oracle of C5's scenario: products on pages 2 and 3, an empty
page with the explicit no-results notice on page 4. -/
def fxFetchScenario : Nat → Node := fun n =>
  if n = 2 then fxPage [fxProduct "A" "$1"]
  else if n = 3 then fxPage [fxProduct "B" "$2"]
  else if n = 4 then fxNoticePage
  else fxEmptyPage

/-- A 4electrolineas product container (title plus regular price). -/
def fxElProduct (nm amount : String) : Node :=
  Node.el "div" ["product-grid-item", "product"] [] [
    Node.el "div" ["product-element-bottom"] [] [
      Node.el "h3" ["wd-entities-title"] [] [Node.el "a" [] [] [Node.text nm]],
      Node.el "div" ["wrap-price"] [] [
        Node.el "span" ["price"] [] [
          Node.el "span" ["woocommerce-Price-amount", "amount"] [] [
            Node.el "bdi" [] [] [Node.text amount]]]]]]

/-- A rendered 4electrolineas listing page with one product. -/
def fxElPage : Node := Node.el "html" [] [] [fxElProduct "Cable" "$5"]

/-- A clock that only agrees with `fxClock` on index 0. -/
def fxClockWild : Nat → String := fun i => if i = 0 then "01/01/2025" else "99/99/9999"

/-- An event stream where every item's `try` block raises after the name
phase with message "boom". -/
def fxRaiseLateAll : Nat → ItemEvent := fun _ => .raiseLate "boom"

/-- An event stream where every item's `try` block raises before the name
was assigned. -/
def fxRaiseEarlyAll : Nat → ItemEvent := fun _ => .raiseEarly "boom"

/-! ### Supporting lemmas -/

theorem mapIdx_length (f : Nat → Node → Rec) : ∀ (i : Nat) (l : List Node),
    (mapIdx f i l).length = l.length := by
  intro i l
  induction l generalizing i with
  | nil => rfl
  | cons d rest ih => simp [mapIdx, ih]

theorem mapIdx_congr (f g : Nat → Node → Rec) : ∀ (i : Nat) (l : List Node),
    (∀ j, j < l.length → ∀ d, f (i + j) d = g (i + j) d) →
    mapIdx f i l = mapIdx g i l := by
  intro i l
  induction l generalizing i with
  | nil => intro _; rfl
  | cons d rest ih =>
    intro h
    have h0 := h 0 (by simp) d
    simp only [Nat.add_zero] at h0
    simp only [mapIdx, h0]
    refine congrArg _ (ih (i + 1) ?_)
    intro j hj e
    have := h (j + 1) (by simpa using Nat.succ_lt_succ hj) e
    simpa [Nat.add_assoc, Nat.add_comm 1 j] using this

theorem mapIdx_getElem? (f : Nat → Node → Rec) : ∀ (i : Nat) (l : List Node) (j : Nat),
    (mapIdx f i l)[j]? = (l[j]?).map (f (i + j)) := by
  intro i l
  induction l generalizing i with
  | nil => intro j; simp [mapIdx]
  | cons d rest ih =>
    intro j
    cases j with
    | zero => simp [mapIdx]
    | succ k =>
      simp only [mapIdx, List.getElem?_cons_succ]
      rw [ih (i + 1) k]
      ring_nf

theorem filterMapIdx_length_all_some (f : Nat → Node × NodeForest → Option Rec) :
    ∀ (i : Nat) (l : List (Node × NodeForest)),
    (∀ j it, (f j it).isSome) →
    (filterMapIdx f i l).length = l.length := by
  intro i l
  induction l generalizing i with
  | nil => intro _; rfl
  | cons d rest ih =>
    intro h
    have := h i d
    simp only [filterMapIdx]
    cases hf : f i d with
    | none => rw [hf] at this; simp at this
    | some r => simp [ih (i + 1) h]

theorem probeFrom_requested_length (fetch : Nat → Node) (clock : Nat → String)
    (events : Nat → ItemEvent) : ∀ (l : List Nat),
    (probeFrom fetch clock events l).1.length ≤ l.length := by
  intro l
  induction l with
  | nil => simp [probeFrom]
  | cons n rest ih =>
    simp only [probeFrom]
    split
    · simp
    · split
      · split
        · simp
        · split
          · simp
          · simpa using Nat.succ_le_succ ih
      · simpa using Nat.succ_le_succ ih

theorem probeFrom_stop_pnf (fetch : Nat → Node) (clock : Nat → String)
    (events : Nat → ItemEvent) (n : Nat) (rest : List Nat)
    (h : hasPageNotFound (fetch n) = true) :
    probeFrom fetch clock events (n :: rest) = ([n], [], []) := by
  simp [probeFrom, h]

theorem probeFrom_stop_notice (fetch : Nat → Node) (clock : Nat → String)
    (events : Nat → ItemEvent) (n : Nat) (rest : List Nat)
    (h1 : hasPageNotFound (fetch n) = false)
    (h2 : process_products_from_soup clock events (fetch n) = [])
    (h3 : hasNoProductsNotice (fetch n) = true) :
    probeFrom fetch clock events (n :: rest) = ([n], [], []) := by
  simp [probeFrom, h1, h2, h3]

theorem probeFrom_accept (fetch : Nat → Node) (clock : Nat → String)
    (events : Nat → ItemEvent) (n : Nat) (rest : List Nat)
    (h1 : hasPageNotFound (fetch n) = false)
    (h2 : process_products_from_soup clock events (fetch n) ≠ []) :
    probeFrom fetch clock events (n :: rest) =
      ((n :: (probeFrom fetch clock events rest).1,
        n :: (probeFrom fetch clock events rest).2.1,
        process_products_from_soup clock events (fetch n) ++
          (probeFrom fetch clock events rest).2.2)) := by
  have h2' : (process_products_from_soup clock events (fetch n)).isEmpty = false := by
    cases hp : process_products_from_soup clock events (fetch n) with
    | nil => exact absurd hp h2
    | cons a t => simp [List.isEmpty]
  simp [probeFrom, h1, h2']

theorem probeFrom_continue_empty (fetch : Nat → Node) (clock : Nat → String)
    (events : Nat → ItemEvent) (n : Nat) (rest : List Nat)
    (h1 : hasPageNotFound (fetch n) = false)
    (h2 : process_products_from_soup clock events (fetch n) = [])
    (h3 : hasNoProductsNotice (fetch n) = false)
    (h4 : n ≤ 5) :
    probeFrom fetch clock events (n :: rest) =
      ((n :: (probeFrom fetch clock events rest).1,
        n :: (probeFrom fetch clock events rest).2.1,
        (probeFrom fetch clock events rest).2.2)) := by
  have h4' : ¬ n > 5 := by omega
  simp [probeFrom, h1, h2, h3, h4']

theorem scrollLoopAux_le (heights : Nat → Nat) : ∀ (fuel iter last cnc : Nat),
    (scrollLoopAux heights fuel iter last cnc).1 ≤ fuel := by
  intro fuel
  induction fuel with
  | zero => intro _ _ _; simp [scrollLoopAux]
  | succ f ih =>
    intro iter last cnc
    simp only [scrollLoopAux]
    split
    · split
      · simp
      · simpa using Nat.succ_le_succ (ih (iter + 1) _ (cnc + 1))
    · simpa using Nat.succ_le_succ (ih (iter + 1) _ 0)

theorem scrollStop_cases (s : ScrollStop) : s = .stable ∨ s = .bound := by
  cases s
  · exact Or.inl rfl
  · exact Or.inr rfl

theorem scrollLoopAux_always_change (heights : Nat → Nat)
    (h : ∀ i, heights (i + 1) ≠ heights i) : ∀ (fuel it cnc : Nat),
    scrollLoopAux heights fuel (it + 1) (heights it) cnc = (fuel, .bound) := by
  intro fuel
  induction fuel with
  | zero => intro _ _; rfl
  | succ f ih =>
    intro it cnc
    simp only [scrollLoopAux, h it, if_false]
    rw [ih (it + 1) 0]

theorem scrollLoopAux_step_continue (heights : Nat → Nat) (fuel iter last cnc : Nat)
    (h : heights iter = last) (hc : cnc + 1 < 2) :
    scrollLoopAux heights (fuel + 1) iter last cnc =
      ((scrollLoopAux heights fuel (iter + 1) (heights iter) (cnc + 1)).1 + 1,
       (scrollLoopAux heights fuel (iter + 1) (heights iter) (cnc + 1)).2) := by
  have hc' : ¬ cnc + 1 ≥ 2 := by omega
  simp [scrollLoopAux, h, hc']

theorem scrollLoopAux_step_stable (heights : Nat → Nat) (fuel iter last cnc : Nat)
    (h : heights iter = last) (hc : cnc + 1 ≥ 2) :
    scrollLoopAux heights (fuel + 1) iter last cnc = (1, .stable) := by
  simp [scrollLoopAux, h, hc]

theorem cascadeSelect_append_none (d : Node) : ∀ (l1 : List Sel) (s : Sel) (l2 : List Sel)
    (e : Node), (∀ s' ∈ l1, selectOne s' d = none) → selectOne s d = some e →
    cascadeSelect (l1 ++ s :: l2) d = some e := by
  intro l1
  induction l1 with
  | nil =>
    intro s l2 e _ hs
    simp [cascadeSelect, hs]
  | cons s0 t ih =>
    intro s l2 e hnone hs
    have h0 : selectOne s0 d = none := hnone s0 (by simp)
    simp only [List.cons_append, cascadeSelect, h0]
    exact ih s l2 e (fun s' hm => hnone s' (by simp [hm])) hs

theorem cascadeSelect_all_none (d : Node) : ∀ (l : List Sel),
    (∀ s ∈ l, selectOne s d = none) → cascadeSelect l d = none := by
  intro l
  induction l with
  | nil => intro _; rfl
  | cons s t ih =>
    intro h
    have h0 : selectOne s d = none := h s (by simp)
    simp only [cascadeSelect, h0]
    exact ih (fun s' hm => h s' (by simp [hm]))

theorem retryRequests_persistent (statusOf : Nat → Nat)
    (h : ∀ j, statusOf j ∈ status_forcelist) : ∀ (r i : Nat),
    retryRequests statusOf r i = (r + 1, .retriesExhausted) := by
  intro r
  induction r with
  | zero =>
    intro i
    simp [retryRequests, h i]
  | succ k ih =>
    intro i
    simp [retryRequests, h i, ih (i + 1)]

theorem retryRequests_first_ok (statusOf : Nat → Nat) (r i : Nat)
    (h : statusOf i ∉ status_forcelist) :
    retryRequests statusOf r i = (1, .response (statusOf i)) := by
  cases r with
  | zero => simp [retryRequests, h]
  | succ k => simp [retryRequests, h]

theorem retryRequests_le (statusOf : Nat → Nat) : ∀ (r i : Nat),
    (retryRequests statusOf r i).1 ≤ r + 1 := by
  intro r
  induction r with
  | zero =>
    intro i
    simp only [retryRequests]
    split
    · simp
    · simp
  | succ k ih =>
    intro i
    simp only [retryRequests]
    split
    · simpa using Nat.succ_le_succ (ih (i + 1))
    · simp

theorem forcelist_ge_500 (s : Nat) (h : s ∈ status_forcelist) : 500 ≤ s := by
  simp only [status_forcelist, List.mem_cons, List.mem_singleton] at h
  rcases h with rfl | rfl | rfl | rfl | h
  · omega
  · omega
  · omega
  · omega
  · simp at h

theorem runScripts_map_fst (outcome : String → Bool) : ∀ (l : List String),
    (runScripts outcome l).map Prod.fst = l := by
  intro l
  induction l with
  | nil => rfl
  | cons s rest ih => simp [runScripts, ih]

theorem runSources_spec : ∀ (items : List (Bool × List Rec)) (db : List Rec),
    runSources db items =
      (db ++ ((items.filter (fun p => p.1)).map (fun p => p.2)).flatten,
       items.all (fun p => p.1)) := by
  intro items
  induction items with
  | nil => intro db; simp [runSources]
  | cons p rest ih =>
    intro db
    obtain ⟨ok, b⟩ := p
    cases ok with
    | true => simp [runSources, commitBatch, ih, List.append_assoc]
    | false => simp [runSources, commitBatch, ih]

theorem lexLe_total : ∀ (as bs : List Char),
    lexLe as bs = true ∨ lexLe bs as = true := by
  intro as
  induction as with
  | nil => intro bs; exact Or.inl rfl
  | cons a at' ih =>
    intro bs
    cases bs with
    | nil => exact Or.inr rfl
    | cons b bt =>
      rcases Nat.lt_trichotomy a.toNat b.toNat with hlt | heq | hgt
      · exact Or.inl (by simp [lexLe, hlt])
      · have h1 : ¬ a.toNat < b.toNat := by omega
        have h2 : ¬ b.toNat < a.toNat := by omega
        rcases ih bt with h | h
        · exact Or.inl (by simp [lexLe, h1, h2, h])
        · exact Or.inr (by simp [lexLe, h1, h2, h])
      · exact Or.inr (by simp [lexLe, hgt])

theorem lexLe_trans : ∀ (as bs cs : List Char),
    lexLe as bs = true → lexLe bs cs = true → lexLe as cs = true := by
  intro as
  induction as with
  | nil => intro bs cs _ _; rfl
  | cons a at' ih =>
    intro bs cs hab hbc
    cases bs with
    | nil => simp [lexLe] at hab
    | cons b bt =>
      cases cs with
      | nil => simp [lexLe] at hbc
      | cons c ct =>
        by_cases h1 : a.toNat < b.toNat <;> by_cases h2 : b.toNat < c.toNat
        · simp [lexLe, show a.toNat < c.toNat by omega]
        · by_cases h3 : c.toNat < b.toNat
          · simp [lexLe, h2, h3] at hbc
          · have hbc' : b.toNat = c.toNat := by omega
            simp [lexLe, show a.toNat < c.toNat by omega]
        · by_cases h0 : b.toNat < a.toNat
          · simp [lexLe, h1, h0] at hab
          · have hab' : a.toNat = b.toNat := by omega
            simp [lexLe, show a.toNat < c.toNat by omega]
        · by_cases h0 : b.toNat < a.toNat
          · simp [lexLe, h1, h0] at hab
          · by_cases h3 : c.toNat < b.toNat
            · simp [lexLe, h2, h3] at hbc
            · have hab' : a.toNat = b.toNat := by omega
              have hbc' : b.toNat = c.toNat := by omega
              have h4 : ¬ a.toNat < c.toNat := by omega
              have h5 : ¬ c.toNat < a.toNat := by omega
              simp only [lexLe, h1, h0, if_false] at hab
              simp only [lexLe, h2, h3, if_false] at hbc
              simp only [lexLe, h4, h5, if_false]
              exact ih bt ct hab hbc

instance : IsTotal String pyLe :=
  ⟨fun a b => lexLe_total a.data b.data⟩

instance : IsTrans String pyLe :=
  ⟨fun a b c => lexLe_trans a.data b.data c.data⟩

theorem strTake_length_le (s : String) (n : Nat) : (strTake s n).length ≤ n := by
  show (s.data.take n).length ≤ n
  simp [List.length_take]

theorem runScripts_all_snd (outcome : String → Bool) : ∀ (l : List String),
    (runScripts outcome l).all (fun p => p.2) = l.all outcome := by
  intro l
  induction l with
  | nil => rfl
  | cons s rest ih => simp [runScripts, ih]

/-! ### The claims -/

/-- C1 (counterexample): the claim says every detected product container node
yields exactly one record even when an unexpected per-item parse exception
occurs.  1electropunto.py instead does `except ...: continue`, skipping the
node: on a rendered page with two detected items where the first item's
`try` block raises (e.g. its per-item `c.execute` insert fails), only one
record is produced for two detected nodes. -/
theorem C1_counterexample :
    electropuntoProcess fxClock fxRaiseFirst fxEpPage = [("01/01/2025", "Prod 2", "$20")] ∧
    (electropuntoItems fxEpPage).length = 2 := by
  exact ⟨rfl, rfl⟩

/-- C1 (amended): the extraction loops that append error records
(3iluminar.py, 4electrolineas.py, 5electromisiones.py) emit exactly one
record per detected product node even when the per-item `try` block raises,
so record-count = node-count unconditionally there; 1electropunto.py's loop
skips the node on a per-item exception, so its record-count equals its
node-count only for exception-free runs. -/
theorem C1_amended_record_count (clock : Nat → String) (events : Nat → ItemEvent)
    (soup : Node) :
    (process_products_from_soup clock events soup).length =
      (select iluminarContainerSel soup).length ∧
    (electrolineasProcess clock events soup).length = (electrolineasContainers soup).length ∧
    (electromisionesProcess clock events soup).length =
      (selectGroup emContainerAlts soup).length ∧
    ((∀ i, events i = .ok) →
      (electropuntoProcess clock events soup).length = (electropuntoItems soup).length) := by
  refine ⟨mapIdx_length _ 0 _, mapIdx_length _ 0 _, mapIdx_length _ 0 _, ?_⟩
  intro h
  apply filterMapIdx_length_all_some
  intro j it
  simp [electropuntoParseItem, h j]

/-- C1 (witness): the amended theorem applied to the two-item 1electropunto
fixture under an exception-free event stream. -/
theorem C1_witness :
    (electropuntoProcess fxClock fxOk fxEpPage).length = (electropuntoItems fxEpPage).length := by
  exact (C1_amended_record_count fxClock fxOk fxEpPage).2.2.2 (fun _ => rfl)

/-- C2: the sequential-probe pagination loop of 3iluminar.py terminates for
every fetch oracle (any markup on any page), visiting at most
`MAX_PAGE_CHECK = 100` additional pages per base URL (`range(2, 101)` in fact
yields only 99 page numbers). -/
theorem C2_pagination_within_ceiling (fetch : Nat → Node) (clock : Nat → String)
    (events : Nat → ItemEvent) :
    (iluminarPagination fetch clock events).1.length ≤ MAX_PAGE_CHECK := by
  have h := probeFrom_requested_length fetch clock events probePages
  have hp : probePages.length = MAX_PAGE_CHECK - 1 := by
    simp [probePages]
  refine le_trans h ?_
  rw [hp]
  simp [MAX_PAGE_CHECK]

/-- C3 (counterexample): the claim says every dynamic-fetch scroll loop stops
after at most 15 scroll attempts.  The `while True` scroll loop of
2casadelaslamparas.py has no attempt bound: with the page height strictly
growing on every measurement it is still running after 16 iterations (and,
inductively, forever). -/
theorem C3_counterexample : casaScroll (fun i => i) 16 = none := by
  rfl

/-- C3 (amended): 3iluminar.py's `scroll_page_fully` executes at most 15
scroll iterations; it stops either because the height was unchanged on two
consecutive checks (`consecutive_no_change >= 2`) or because the attempt
bound was hit, the latter returning normally (a logged non-fatal anomaly);
if the height never repeats, the bound is reached exactly; if the first two
measurements already repeat the initial height, it stops as stable after 2
iterations.  2casadelaslamparas.py's scroll loop (the counterexample) obeys
no such bound. -/
theorem C3_amended_scroll_bound (heights : Nat → Nat) :
    (scroll_page_fully heights).1 ≤ 15 ∧
    ((scroll_page_fully heights).2 = .stable ∨ (scroll_page_fully heights).2 = .bound) ∧
    ((∀ i, heights (i + 1) ≠ heights i) → scroll_page_fully heights = (15, .bound)) ∧
    (heights 1 = heights 0 → heights 2 = heights 1 → scroll_page_fully heights = (2, .stable)) := by
  refine ⟨scrollLoopAux_le heights 15 1 (heights 0) 0, scrollStop_cases _, ?_, ?_⟩
  · intro h
    exact scrollLoopAux_always_change heights h 15 0 0
  · intro h1 h2
    show scrollLoopAux heights 15 1 (heights 0) 0 = (2, .stable)
    have e1 : scrollLoopAux heights 15 1 (heights 0) 0 =
        ((scrollLoopAux heights 14 2 (heights 1) 1).1 + 1,
         (scrollLoopAux heights 14 2 (heights 1) 1).2) :=
      scrollLoopAux_step_continue heights 14 1 (heights 0) 0 h1 (by omega)
    have e2 : scrollLoopAux heights 14 2 (heights 1) 1 = (1, .stable) :=
      scrollLoopAux_step_stable heights 13 2 (heights 1) 1 h2 (by omega)
    rw [e1, e2]

/-- C3 (witness): the amended theorem applied to a strictly-growing height
oracle (bound reached) and to a constant height oracle (stable after two
checks). -/
theorem C3_witness :
    scroll_page_fully (fun i => i) = (15, .bound) ∧
    scroll_page_fully (fun _ => 7) = (2, .stable) := by
  refine ⟨(C3_amended_scroll_bound (fun i => i)).2.2.1 ?_,
    (C3_amended_scroll_bound (fun _ => 7)).2.2.2 rfl rfl⟩
  intro i
  omega

/-- C4: the static fetch of 4electrolineas.py / 5electromisiones.py
(`Retry(total=5, status_forcelist=[500, 502, 503, 504])`) issues at most
`RETRY_TOTAL = 5` retries (6 requests) in every case; a persistently
transient status exhausts exactly the 5 retries and surfaces a failure;
any 4xx status is returned without any retry and `raise_for_status` turns it
into an immediate failure; the caller's per-URL loop skips a failed page and
continues with the remaining URLs. -/
theorem C4_retry_policy :
    (∀ statusOf : Nat → Nat, (fetch_page statusOf).1 ≤ RETRY_TOTAL + 1) ∧
    (∀ statusOf : Nat → Nat, (∀ j, statusOf j ∈ status_forcelist) →
      fetch_page statusOf = (RETRY_TOTAL + 1, .failed)) ∧
    (∀ statusOf : Nat → Nat, 400 ≤ statusOf 0 → statusOf 0 < 500 →
      fetch_page statusOf = (1, .failed)) ∧
    (∀ (statusOf : String → Nat → Nat) (extract : String → List Rec)
      (u : String) (rest : List String),
      (fetch_page (statusOf u)).2 = .failed →
      scrapeUrls statusOf extract (u :: rest) = scrapeUrls statusOf extract rest) := by
  refine ⟨?_, ?_, ?_, ?_⟩
  · intro statusOf
    have hb := retryRequests_le statusOf RETRY_TOTAL 0
    unfold fetch_page session_get
    unfold session_get at hb
    rcases hr : retryRequests statusOf RETRY_TOTAL 0 with ⟨k, r⟩
    rw [hr] at hb
    cases r <;> simpa using hb
  · intro statusOf h
    have hp := retryRequests_persistent statusOf h RETRY_TOTAL 0
    simp [fetch_page, session_get, hp]
  · intro statusOf h4 h5
    have hm : statusOf 0 ∉ status_forcelist := fun hmem => by
      have := forcelist_ge_500 (statusOf 0) hmem
      omega
    have hone : session_get statusOf = (1, .response (statusOf 0)) :=
      retryRequests_first_ok statusOf RETRY_TOTAL 0 hm
    simp [fetch_page, hone, h4]
  · intro statusOf extract u rest h
    simp [scrapeUrls, h]

/-- C4 (witness): the retry policy applied to a server that always answers
503 (five retries, then failure), one that answers 404 (zero retries,
immediate failure), and a per-URL loop where the failed URL is skipped. -/
theorem C4_witness :
    fetch_page (fun _ => 503) = (6, .failed) ∧
    fetch_page (fun _ => 404) = (1, .failed) ∧
    scrapeUrls (fun _ _ => 404) (fun _ => []) ["u1"] =
      scrapeUrls (fun _ _ => 404) (fun _ => []) [] := by
  refine ⟨C4_retry_policy.2.1 (fun _ => 503) ?_,
    C4_retry_policy.2.2.1 (fun _ => 404) (by norm_num) (by norm_num),
    C4_retry_policy.2.2.2 (fun _ _ => 404) (fun _ => []) "u1" [] ?_⟩
  · intro j
    simp [status_forcelist]
  · rfl

/-- C5 (counterexample): the claim says the no-results notice stops probing
and discards the page whenever the page-not-found marker is absent.  In
3iluminar.py the notice check is only reached when ZERO product nodes were
extracted: on a probed page 2 that carries both one product container and
the explicit "No products were found" notice, the page is accepted (its
records kept) and page 3 is still requested. -/
theorem C5_counterexample :
    hasNoProductsNotice (fxFetchCE 2) = true ∧
    2 ∈ (iluminarPagination fxFetchCE fxClock fxOk).2.1 ∧
    3 ∈ (iluminarPagination fxFetchCE fxClock fxOk).1 := by
  exact ⟨rfl, by decide, by decide⟩

/-- C5 (amended): the stop conditions of 3iluminar.py's probe loop in their
actual precedence: (1) the page-not-found marker stops probing and discards
the page; otherwise the page is extracted, and only when zero records were
produced (2) an explicit no-results notice stops probing, else (3) the
page-number > 5 heuristic; a page with detected product nodes is always
accepted, its notice ignored.  Scenario: products on pages 2 and 3 and an
empty page 4 carrying the notice give requested pages [2, 3, 4], accepted
pages [2, 3], page 5 never requested, and the records of pages 2 and 3. -/
theorem C5_amended_stop_conditions (fetch : Nat → Node) (clock : Nat → String)
    (events : Nat → ItemEvent) :
    (hasPageNotFound (fetch 2) = true →
      iluminarPagination fetch clock events = ([2], [], [])) ∧
    (hasPageNotFound (fetch 2) = false →
      process_products_from_soup clock events (fetch 2) = [] →
      hasNoProductsNotice (fetch 2) = true →
      iluminarPagination fetch clock events = ([2], [], [])) ∧
    (hasPageNotFound (fetch 2) = false →
      process_products_from_soup clock events (fetch 2) ≠ [] →
      2 ∈ (iluminarPagination fetch clock events).2.1) ∧
    (hasPageNotFound (fetch 2) = false → hasPageNotFound (fetch 3) = false →
      hasPageNotFound (fetch 4) = false →
      process_products_from_soup clock events (fetch 2) ≠ [] →
      process_products_from_soup clock events (fetch 3) ≠ [] →
      process_products_from_soup clock events (fetch 4) = [] →
      hasNoProductsNotice (fetch 4) = true →
      iluminarPagination fetch clock events =
        ([2, 3, 4], [2, 3],
          process_products_from_soup clock events (fetch 2) ++
            process_products_from_soup clock events (fetch 3)) ∧
      5 ∉ (iluminarPagination fetch clock events).1) := by
  have hp : probePages = 2 :: 3 :: 4 :: List.range' 5 96 := rfl
  refine ⟨?_, ?_, ?_, ?_⟩
  · intro h
    show probeFrom fetch clock events probePages = _
    rw [hp]
    exact probeFrom_stop_pnf fetch clock events 2 _ h
  · intro h1 h2 h3
    show probeFrom fetch clock events probePages = _
    rw [hp]
    exact probeFrom_stop_notice fetch clock events 2 _ h1 h2 h3
  · intro h1 h2
    show 2 ∈ (probeFrom fetch clock events probePages).2.1
    rw [hp, probeFrom_accept fetch clock events 2 _ h1 h2]
    simp
  · intro h2n h3n h4n h2p h3p h4e h4notice
    have h4 := probeFrom_stop_notice fetch clock events 4 (List.range' 5 96) h4n h4e h4notice
    have h3 := probeFrom_accept fetch clock events 3 (4 :: List.range' 5 96) h3n h3p
    have h2 := probeFrom_accept fetch clock events 2 (3 :: 4 :: List.range' 5 96) h2n h2p
    rw [h4] at h3
    rw [h3] at h2
    have hmain : iluminarPagination fetch clock events =
        ([2, 3, 4], [2, 3],
          process_products_from_soup clock events (fetch 2) ++
            process_products_from_soup clock events (fetch 3)) := by
      show probeFrom fetch clock events probePages = _
      rw [hp, h2]
      simp
    refine ⟨hmain, ?_⟩
    rw [hmain]
    show (5 : Nat) ∉ [2, 3, 4]
    decide

/-- C5 (witness): the amended theorem applied to the scenario fetch oracle
(products on pages 2 and 3, empty page 4 with the notice) and, for the
first two stop conditions, to a page-not-found page 2 and to an empty page 2
carrying the notice. -/
theorem C5_witness :
    iluminarPagination (fun _ => fxNotFoundPage) fxClock fxOk = ([2], [], []) ∧
    iluminarPagination (fun _ => fxNoticePage) fxClock fxOk = ([2], [], []) ∧
    iluminarPagination fxFetchScenario fxClock fxOk =
      ([2, 3, 4], [2, 3],
        [("01/01/2025", "A", "$1"), ("01/01/2025", "B", "$2")]) ∧
    5 ∉ (iluminarPagination fxFetchScenario fxClock fxOk).1 := by
  have hA := (C5_amended_stop_conditions (fun _ => fxNotFoundPage) fxClock fxOk).1 rfl
  have hB := (C5_amended_stop_conditions (fun _ => fxNoticePage) fxClock fxOk).2.1 rfl rfl rfl
  have hC := (C5_amended_stop_conditions fxFetchScenario fxClock fxOk).2.2.2
    rfl rfl rfl (by decide) (by decide) rfl rfl
  refine ⟨hA, hB, ?_, hC.2⟩
  rw [hC.1]
  rfl

/-- Membership in the harvested page-URL list is membership in the raw
base-plus-links list. -/
theorem page_urls_mem (soup : Node) (base x : String) :
    x ∈ page_urls_to_scrape soup base ↔
      x ∈ (match electrolineasNav soup with
           | some nv => base :: hrefsOfNav nv
           | none => [base]) := by
  unfold page_urls_to_scrape
  exact ((List.perm_insertionSort pyLe _).mem_iff).trans List.mem_dedup

/-- C6: 4electrolineas.py's link-harvest discoverer returns exactly the
deduplicated set {base URL} ∪ {hrefs of `a.page-numbers` links inside the
located pagination nav}, sorted ascending (Python `sorted` on strings) and
duplicate-free; with no pagination nav the result is just the base URL (not
an error); on a nav linking pages 2 and 3 plus the base page the result is
exactly the three page URLs in ascending order. -/
theorem C6_link_harvest_pages :
    (∀ (soup : Node) (base : String), electrolineasNav soup = none →
      page_urls_to_scrape soup base = [base]) ∧
    (∀ (soup : Node) (base x : String),
      x ∈ page_urls_to_scrape soup base ↔
        (x = base ∨ ∃ nv, electrolineasNav soup = some nv ∧ x ∈ hrefsOfNav nv)) ∧
    (∀ (soup : Node) (base : String),
      List.Sorted pyLe (page_urls_to_scrape soup base) ∧
      (page_urls_to_scrape soup base).Nodup) ∧
    page_urls_to_scrape fxNavPage "https://ex.com/cat/" =
      ["https://ex.com/cat/", "https://ex.com/cat/page/2/", "https://ex.com/cat/page/3/"] := by
  refine ⟨?_, ?_, ?_, rfl⟩
  · intro soup base h
    simp [page_urls_to_scrape, h, List.insertionSort, List.orderedInsert]
  · intro soup base x
    rw [page_urls_mem]
    cases hnav : electrolineasNav soup with
    | none => simp
    | some nv => simp
  · intro soup base
    constructor
    · exact List.sorted_insertionSort pyLe _
    · exact ((List.perm_insertionSort pyLe _).nodup_iff).mpr (List.nodup_dedup _)

/-- C6 (witness): the harvest applied to a page without any pagination nav
returns exactly the base URL. -/
theorem C6_witness :
    page_urls_to_scrape fxEmptyPage "https://ex.com/cat/" = ["https://ex.com/cat/"] :=
  C6_link_harvest_pages.1 fxEmptyPage "https://ex.com/cat/" rfl

/-- C7: the price cascade.  3iluminar.py tries its `price_selectors` in
configured order, the first structural match winning, and falls back to the
"No disponible" sentinel when none matches; 5electromisiones.py joins the
matched element's non-empty stripped text fragments with single spaces (and
uses the sentinel when nothing matches); on a page with three product
containers where only the second lacks a price element, exactly three
records result, the second's price being the sentinel and the others
non-sentinel. -/
theorem C7_price_extraction :
    (∀ (d : Node) (l1 : List Sel) (s : Sel) (l2 : List Sel) (e : Node),
      price_selectors = l1 ++ s :: l2 →
      (∀ s' ∈ l1, selectOne s' d = none) →
      selectOne s d = some e →
      iluminarPrice d = pyStrip (textOf e)) ∧
    (∀ d : Node, (∀ s ∈ price_selectors, selectOne s d = none) →
      iluminarPrice d = "No disponible") ∧
    (∀ (d e : Node), selectOneGroup emPriceAlts d = some e → emPriceParts e ≠ [] →
      emPrice d = String.intercalate " " (emPriceParts e)) ∧
    (∀ d : Node, selectOneGroup emPriceAlts d = none → emPrice d = "No disponible") ∧
    process_products_from_soup fxClock fxOk
        (fxPage [fxProduct "Lamp A" "$100", fxProductNoPrice "Lamp B", fxProduct "Lamp C" "$300"]) =
      [("01/01/2025", "Lamp A", "$100"), ("01/01/2025", "Lamp B", "No disponible"),
       ("01/01/2025", "Lamp C", "$300")] ∧
    ("$100" : String) ≠ "No disponible" ∧ ("$300" : String) ≠ "No disponible" := by
  refine ⟨?_, ?_, ?_, ?_, rfl, by decide, by decide⟩
  · intro d l1 s l2 e hps hnone hs
    have hcas : cascadeSelect price_selectors d = some e := by
      rw [hps]
      exact cascadeSelect_append_none d l1 s l2 e hnone hs
    simp [iluminarPrice, hcas]
  · intro d h
    have hcas := cascadeSelect_all_none d price_selectors h
    simp [iluminarPrice, hcas]
  · intro d e hsel hne
    cases hp : emPriceParts e with
    | nil => exact absurd hp hne
    | cons a t => simp [emPrice, hsel, hp]
  · intro d h
    simp [emPrice, h]

/-- C7 (witness): the cascade applied to a product whose second candidate
selector matches (first match wins), to a priceless product (sentinel), and
to a 5electromisiones price span whose text is split into two fragments
(joined with one space). -/
theorem C7_witness :
    iluminarPrice (fxProduct "Lamp A" "$100") = "$100" ∧
    iluminarPrice (fxProductNoPrice "Lamp B") = "No disponible" ∧
    emPrice (fxEmProduct "Cable X" "123") = "$ 123" := by
  have h1 := C7_price_extraction.1 (fxProduct "Lamp A" "$100")
      (price_selectors.take 1)
      (.desc (.desc (.desc (.simple ⟨some "div", none, ["price-wrapper"]⟩)
        ⟨some "span", none, ["price"]⟩)
        ⟨some "span", none, ["woocommerce-Price-amount", "amount"]⟩) ⟨some "bdi", none, []⟩)
      (price_selectors.drop 2)
      (Node.el "bdi" [] [] [Node.text "$100"])
      rfl
      (by
        intro s' hm
        fin_cases hm
        rfl)
      rfl
  have h2 := C7_price_extraction.2.1 (fxProductNoPrice "Lamp B")
      (by
        intro s hm
        fin_cases hm <;> rfl)
  have h3 := C7_price_extraction.2.2.1 (fxEmProduct "Cable X" "123")
      (Node.el "span" ["price"] [] [Node.text "  $ ", Node.el "b" [] [] [Node.text "123  "]])
      rfl (by decide)
  exact ⟨h1.trans rfl, h2, h3.trans rfl⟩

/-- C8: main.py runs every sub-script regardless of earlier failures and its
`overall_success` exit flag is the conjunction of the per-script outcomes;
the per-source persistence sink commits each source's batch independently,
a failed commit rolling back exactly that batch while every later source is
still attempted and, absent its own failure, committed; in particular with
sources A, B, C where only B's insert fails, the stored rows are A's batch
followed by C's and the overall result is failure. -/
theorem C8_persistence_isolation (outcome : String → Bool) (db : List Rec)
    (items : List (Bool × List Rec)) :
    (runScripts outcome scripts).map Prod.fst = scripts ∧
    overall_success outcome = scripts.all outcome ∧
    runSources db items =
      (db ++ ((items.filter (fun p => p.1)).map (fun p => p.2)).flatten,
       items.all (fun p => p.1)) ∧
    (∀ bA bB bC : List Rec,
      runSources [] [(true, bA), (false, bB), (true, bC)] = (bA ++ bC, false)) := by
  refine ⟨runScripts_map_fst outcome scripts, runScripts_all_snd outcome scripts,
    runSources_spec items db, ?_⟩
  intro bA bB bC
  rw [runSources_spec]
  simp

/-- C9 (counterexample): the claim says identical markup plus identical
selector configuration alone force identical output records including the
capture-date field.  The capture date is sampled from `datetime.now()` at
extraction time: two runs over the same rendered page on different days
produce different record lists (the date field differs). -/
theorem C9_counterexample :
    process_products_from_soup fxClock fxOk (fxPage [fxProduct "Lamp A" "$100"]) ≠
      process_products_from_soup fxClockLater fxOk (fxPage [fxProduct "Lamp A" "$100"]) := by
  decide

/-- C9 (amended): extraction is deterministic given identical markup,
identical (fixed) selector configuration, identical per-item capture dates
and identical per-item exception outcomes: the extraction output depends on
the ambient clock and event streams only at the indices of the detected
product nodes, so two runs agreeing there produce identical record lists. -/
theorem C9_amended_determinism (clock1 clock2 : Nat → String)
    (events1 events2 : Nat → ItemEvent) (soup : Node) :
    ((∀ i, i < (select iluminarContainerSel soup).length → clock1 i = clock2 i) →
      (∀ i, i < (select iluminarContainerSel soup).length → events1 i = events2 i) →
      process_products_from_soup clock1 events1 soup =
        process_products_from_soup clock2 events2 soup) ∧
    ((∀ i, i < (selectGroup emContainerAlts soup).length → clock1 i = clock2 i) →
      (∀ i, i < (selectGroup emContainerAlts soup).length → events1 i = events2 i) →
      electromisionesProcess clock1 events1 soup =
        electromisionesProcess clock2 events2 soup) := by
  constructor
  · intro hc he
    apply mapIdx_congr
    intro j hj d
    simp only [Nat.zero_add]
    rw [hc j hj, he j hj]
  · intro hc he
    apply mapIdx_congr
    intro j hj d
    simp only [Nat.zero_add]
    rw [hc j hj, he j hj]

/-- C9 (witness): the amended determinism applied to a one-product page and
two clocks that agree on index 0 (the only detected node) but disagree
everywhere else. -/
theorem C9_witness :
    process_products_from_soup fxClock fxOk (fxPage [fxProduct "Lamp A" "$100"]) =
      process_products_from_soup fxClockWild fxOk (fxPage [fxProduct "Lamp A" "$100"]) := by
  apply (C9_amended_determinism fxClock fxClockWild fxOk fxOk
    (fxPage [fxProduct "Lamp A" "$100"])).1
  · intro i hi
    have hlen : (select iluminarContainerSel (fxPage [fxProduct "Lamp A" "$100"])).length = 1 :=
      rfl
    rw [hlen] at hi
    have hz : i = 0 := by omega
    subst hz
    rfl
  · intro i _
    rfl

theorem process_products_getElem? (clock : Nat → String) (events : Nat → ItemEvent)
    (soup : Node) (j : Nat) :
    (process_products_from_soup clock events soup)[j]? =
      ((select iluminarContainerSel soup)[j]?).map
        (fun d => iluminarParseItem (clock j) (events j) d) := by
  have h := mapIdx_getElem? (fun i d => iluminarParseItem (clock i) (events i) d) 0
    (select iluminarContainerSel soup) j
  simpa [Nat.zero_add] using h

theorem electrolineasProcess_getElem? (clock : Nat → String) (events : Nat → ItemEvent)
    (soup : Node) (j : Nat) :
    (electrolineasProcess clock events soup)[j]? =
      ((electrolineasContainers soup)[j]?).map
        (fun d => electrolineasParseItem (clock j) (events j) d) := by
  have h := mapIdx_getElem? (fun i d => electrolineasParseItem (clock i) (events i) d) 0
    (electrolineasContainers soup) j
  simpa [Nat.zero_add] using h

theorem electromisionesProcess_getElem? (clock : Nat → String) (events : Nat → ItemEvent)
    (soup : Node) (j : Nat) :
    (electromisionesProcess clock events soup)[j]? =
      ((selectGroup emContainerAlts soup)[j]?).map
        (fun d => emParseItem (clock j) (events j) d) := by
  have h := mapIdx_getElem? (fun i d => emParseItem (clock i) (events i) d) 0
    (selectGroup emContainerAlts soup) j
  simpa [Nat.zero_add] using h

/-- C10: every error-tagged record emitted after a per-item extraction
exception (3iluminar.py, 4electrolineas.py, 5electromisiones.py) has the
fixed shape `(fecha, "Error en parseo - " ++ name-so-far, str(e)[:50])`:
the description is the literal error prefix followed by the name extracted
before the exception (the sentinel when none was), and the price is the
exception message truncated to at most 50 characters. -/
theorem C10_error_record_shape (clock : Nat → String) (events : Nat → ItemEvent)
    (soup : Node) (j : Nat) (msg : String) :
    (∀ d : Node, (select iluminarContainerSel soup)[j]? = some d →
      ((events j = .raiseEarly msg →
        (process_products_from_soup clock events soup)[j]? =
          some (clock j, "Error en parseo - " ++ "No disponible", strTake msg 50)) ∧
       (events j = .raiseLate msg →
        (process_products_from_soup clock events soup)[j]? =
          some (clock j, "Error en parseo - " ++ iluminarName d, strTake msg 50)))) ∧
    (∀ d : Node, (electrolineasContainers soup)[j]? = some d →
      events j = .raiseLate msg →
      (electrolineasProcess clock events soup)[j]? =
        some (clock j, "Error en parseo - " ++ electrolineasName d, strTake msg 50)) ∧
    (∀ d : Node, (selectGroup emContainerAlts soup)[j]? = some d →
      events j = .raiseLate msg →
      (electromisionesProcess clock events soup)[j]? =
        some (clock j, "Error en parseo - " ++ emName d, strTake msg 50)) ∧
    (strTake msg 50).length ≤ 50 := by
  refine ⟨?_, ?_, ?_, strTake_length_le msg 50⟩
  · intro d hd
    constructor
    · intro hev
      rw [process_products_getElem?, hd, hev]
      rfl
    · intro hev
      rw [process_products_getElem?, hd, hev]
      rfl
  · intro d hd hev
    rw [electrolineasProcess_getElem?, hd, hev]
    rfl
  · intro d hd hev
    rw [electromisionesProcess_getElem?, hd, hev]
    rfl

/-- C10 (witness): the error-record shape on concrete one-product pages of
each of the three scrapers, with the exception raised after the name phase
(and, for 3iluminar, also before it). -/
theorem C10_witness :
    (process_products_from_soup fxClock fxRaiseLateAll (fxPage [fxProduct "Lamp A" "$100"]))[0]? =
      some ("01/01/2025", "Error en parseo - Lamp A", "boom") ∧
    (process_products_from_soup fxClock fxRaiseEarlyAll (fxPage [fxProduct "Lamp A" "$100"]))[0]? =
      some ("01/01/2025", "Error en parseo - No disponible", "boom") ∧
    (electrolineasProcess fxClock fxRaiseLateAll fxElPage)[0]? =
      some ("01/01/2025", "Error en parseo - Cable", "boom") ∧
    (electromisionesProcess fxClock fxRaiseLateAll (fxEmPage [fxEmProduct "Cable X" "123"]))[0]? =
      some ("01/01/2025", "Error en parseo - Cable X", "boom") ∧
    (strTake "boom" 50).length ≤ 50 := by
  have hIl := (C10_error_record_shape fxClock fxRaiseLateAll
    (fxPage [fxProduct "Lamp A" "$100"]) 0 "boom").1 (fxProduct "Lamp A" "$100") rfl
  have hIe := (C10_error_record_shape fxClock fxRaiseEarlyAll
    (fxPage [fxProduct "Lamp A" "$100"]) 0 "boom").1 (fxProduct "Lamp A" "$100") rfl
  have hEl := (C10_error_record_shape fxClock fxRaiseLateAll fxElPage 0 "boom").2.1
    (fxElProduct "Cable" "$5") rfl rfl
  have hEm := (C10_error_record_shape fxClock fxRaiseLateAll
    (fxEmPage [fxEmProduct "Cable X" "123"]) 0 "boom").2.2.1
    (fxEmProduct "Cable X" "123") rfl rfl
  have hLen := (C10_error_record_shape fxClock fxRaiseLateAll
    (fxPage [fxProduct "Lamp A" "$100"]) 0 "boom").2.2.2
  exact ⟨(hIl.2 rfl).trans rfl, (hIe.1 rfl).trans rfl, hEl.trans rfl, hEm.trans rfl, hLen⟩

end Scrape
